import Mathlib

/-!
Verification of the ORF-2025-Space bundle-transport proxy.

Shallow embedding of the Go sources:
  earth/bpsocket/{address.go, socket.go, sender.go, receiver.go}
  backend-server/internal/infrastructure/gateway/bp_gateway.go (channel-based revision)
  backend-server/internal/application/service/bp_service.go
  backend-server/internal/infrastructure/worker/request_handler.go
  earth/main.go (recvStageBpSocket pipeline stage)

Pure data (JSON envelopes, addresses) becomes Lean structures; effectful code
becomes functions from the outcomes of its collaborators (cache lookup result,
gateway result, receive outcome, ...) to an explicit record of the returned
value together with which side effects were invoked.  Go machine integers are
Nat or Int with explicit mod two to the 32 where Go truncates.  Go maps of
type map of string to string list are association lists.
-/

/-! ## Shared wire/data model -/

/-- Go `map[string][]string` (HTTP header multimap), as an association list. -/
abbrev HeaderMap := List (String × List String)

/-- `model.BpRequest` (backend-server/internal/application/model/bprequest.go),
restricted to the fields the verified code paths read. -/
structure BpRequest where
  Method : String
  URL : String
  Headers : HeaderMap
  Body : List Nat
deriving Repr, DecidableEq

/-- `model.BpResponse` (backend-server/internal/application/model/bpresponse.go). -/
structure BpResponse where
  StatusCode : Int
  Headers : HeaderMap
  Body : List Nat
  ContentType : String
  ContentLength : Int
deriving Repr, DecidableEq

/-- UTF-8 bytes of a Go string literal (used for fixed message bodies). -/
def strBytes (s : String) : List Nat :=
  s.toUTF8.toList.map (fun b => b.toNat)

/-! ## Base64 (Go `encoding/base64` StdEncoding)

`sendBundle` base64-encodes request bodies and the gateway decodes response
bodies with `base64.StdEncoding`.  We embed the standard alphabet with
padding. -/

def base64Alphabet : List Char :=
  "ABCDEFGHIJKLMNOPQRSTUVWXYZabcdefghijklmnopqrstuvwxyz0123456789+/".toList

def sextetToChar (n : Nat) : Char := base64Alphabet.getD n '?'

def charToSextet (c : Char) : Option Nat :=
  base64Alphabet.findIdx? (fun a => a == c)

/-- `base64.StdEncoding.EncodeToString`: 3 input bytes map to 4 alphabet
characters; a 1- or 2-byte tail is padded with `=`. -/
def base64EncodeBytes : List Nat → List Char
  | [] => []
  | [a] => [sextetToChar (a / 4), sextetToChar (a % 4 * 16), '=', '=']
  | [a, b] => [sextetToChar (a / 4), sextetToChar (a % 4 * 16 + b / 16),
      sextetToChar (b % 16 * 4), '=']
  | a :: b :: c :: rest =>
      sextetToChar (a / 4) :: sextetToChar (a % 4 * 16 + b / 16) ::
      sextetToChar (b % 16 * 4 + c / 64) :: sextetToChar (c % 64) ::
      base64EncodeBytes rest

/-- `base64.StdEncoding.DecodeString`: consumes 4 characters per quantum,
accepting `=` padding only in a final quantum. -/
def base64DecodeChars : List Char → Option (List Nat)
  | [] => some []
  | c0 :: c1 :: c2 :: c3 :: rest =>
    match charToSextet c0, charToSextet c1 with
    | some s0, some s1 =>
      if c2 == '=' then
        if c3 == '=' && rest.isEmpty then some [s0 * 4 + s1 / 16] else none
      else
        match charToSextet c2 with
        | some s2 =>
          if c3 == '=' then
            if rest.isEmpty then some [s0 * 4 + s1 / 16, s1 % 16 * 16 + s2 / 4]
            else none
          else
            match charToSextet c3, base64DecodeChars rest with
            | some s3, some tail =>
                some ((s0 * 4 + s1 / 16) :: (s1 % 16 * 16 + s2 / 4) ::
                  (s2 % 4 * 64 + s3) :: tail)
            | _, _ => none
        | none => none
    | _, _ => none
  | _ => none

def base64Encode (bs : List Nat) : String := String.mk (base64EncodeBytes bs)

def base64Decode (s : String) : Option (List Nat) := base64DecodeChars s.toList

/-! ## earth/bpsocket: address, socket, sender, receiver -/

namespace bpsocket

/-- `constants.go`: bp-socket kernel module constants. -/
def AF_BP : Nat := 28

/-- `constants.go`: IPN scheme identifier. -/
def BP_SCHEME_IPN : Int := 1

/-- `address.go` `SockaddrBP`: the fixed-layout record handed to the kernel.
`NodeNum` and `SvcNum` are Go `uint32` fields, represented as Nat values
below two to the 32. -/
structure SockaddrBP where
  Family : Nat
  Scheme : Int
  NodeNum : Nat
  SvcNum : Nat
deriving Repr, DecidableEq

/-- `address.go` `NewSockaddrBP(nodeNum, svcNum uint64)`: the Go conversions
`uint32(nodeNum)` and `uint32(svcNum)` keep the low 32 bits, i.e. reduce
mod two to the 32. -/
def NewSockaddrBP (nodeNum svcNum : Nat) : SockaddrBP :=
  { Family := AF_BP
    Scheme := BP_SCHEME_IPN
    NodeNum := nodeNum % 2 ^ 32
    SvcNum := svcNum % 2 ^ 32 }

/-- OS file-descriptor table: the set of currently open descriptors. -/
abbrev FdTable := List Int

/-- `syscall.Close` (via `closeFd` in syscall_linux.go): closing an open
descriptor removes it from the table; closing anything else fails with
EBADF. -/
def closeFd (fd : Int) (os : FdTable) : Except String Unit × FdTable :=
  if os.contains fd then (Except.ok (), os.erase fd)
  else (Except.error "close syscall error: EBADF", os)

/-- `socket.go` `BpSocket`: the descriptor is never mutated after creation
(`Close` does not reset it). -/
structure BpSocket where
  fd : Int
deriving Repr, DecidableEq

/-- `socket.go` `BpSocket.Close`: guarded by `fd >= 0`, but `fd` is left
unchanged, so a repeated call re-enters `closeFd` with the same
descriptor. -/
def BpSocket.Close (s : BpSocket) (os : FdTable) : Except String Unit × FdTable :=
  if s.fd ≥ 0 then closeFd s.fd os
  else (Except.ok (), os)

/-- `receiver.go`: `maxBundleSize = 4 * 1024 * 1024`. -/
def maxBundleSize : Nat := 4 * 1024 * 1024

/-- Outcome of `BpSender.Send` after `json.Marshal` succeeded: either the
size guard rejects the payload before any socket call, or the bytes are
handed to `socket.Send`. -/
inductive SendResult where
  | sizeExceeded (size max : Nat)
  | sentToSocket (data : List Nat)
deriving Repr, DecidableEq

/-- `sender.go` `BpSender.Send`: rejects a serialized payload larger than
`maxBundleSize` before any transport call, otherwise delegates the bytes to
the socket.  `jsonData` is the `json.Marshal` output. -/
def BpSender.Send (jsonData : List Nat) : SendResult :=
  if jsonData.length > maxBundleSize then
    SendResult.sizeExceeded jsonData.length maxBundleSize
  else
    SendResult.sentToSocket jsonData

/-- One iteration input of `receiveLoop` in `receiver.go`: RecvOutcome.ok is a
successful `socket.Recv` with the received bytes, RecvOutcome.err a failed
one. -/
inductive RecvOutcome where
  | ok (data : List Nat)
  | err (msg : String)
deriving Repr, DecidableEq

/-- Observable state of the `receiver.go` receive loop: which socket instance
is in use (`socketRecreations` counts recreations; the source never recreates
one), the contents of the capacity-100 `dataChan`, and whether the loop has
terminated. -/
structure BpReceiverState where
  socketRecreations : Nat
  queue : List (List Nat)
  stopped : Bool
deriving Repr, DecidableEq

/-- One iteration of `receiveLoop` (receiver.go lines 56-96): a receive error
is logged and the loop continues unchanged; received data is pushed onto
`dataChan` unless the channel is full, in which case the bundle is dropped. -/
def receiveLoopStep (st : BpReceiverState) (o : RecvOutcome) : BpReceiverState :=
  if st.stopped then st
  else
    match o with
    | RecvOutcome.err _ => st
    | RecvOutcome.ok data =>
        if st.queue.length < 100 then { st with queue := st.queue ++ [data] }
        else st

/-- `receiveLoop` run over a finite trace of receive outcomes. -/
def receiveLoopRun (st : BpReceiverState) (tr : List RecvOutcome) : BpReceiverState :=
  tr.foldl receiveLoopStep st

/-- The two fields `json.Unmarshal` fills in `ParseDTNRequest` (receiver.go):
absent JSON fields are left at the Go zero value, the empty string. -/
structure DTNRequestFields where
  RequestID : String
  URL : String
deriving Repr, DecidableEq

/-- `receiver.go` `ParseDTNRequest`: the argument is the `json.Unmarshal`
outcome on the payload (`none` models malformed JSON).  Only an unmarshal
failure or an empty URL is rejected; the requestID is passed through
unchecked.  Returns (url, reqID) on success. -/
def ParseDTNRequest (unmarshalled : Option DTNRequestFields) : Except String (String × String) :=
  match unmarshalled with
  | none => Except.error "JSON parse error"
  | some req =>
      if req.URL == "" then Except.error "URL is empty"
      else Except.ok (req.URL, req.RequestID)

end bpsocket

/-! ## earth/main.go: recv stage of the crawler pipeline -/

namespace earthMain

/-- `main.go` `CrawlRequest`: the message forwarded into `urlChan`. -/
structure CrawlRequest where
  RequestID : String
  URL : String
  Depth : Nat
deriving Repr, DecidableEq

def hexUpperDigit (n : Nat) : Char :=
  "0123456789ABCDEF".toList.getD n '0'

/-- Go `net/url.QueryEscape` on one character (ASCII range): unreserved
characters pass through, space becomes `+`, everything else is
percent-encoded. -/
def queryEscapeChar (c : Char) : List Char :=
  if c.isAlphanum || c == '-' || c == '_' || c == '.' || c == '~' then [c]
  else if c == ' ' then ['+']
  else ['%', hexUpperDigit (c.toNat / 16 % 16), hexUpperDigit (c.toNat % 16)]

/-- Go `net/url.QueryEscape` (restricted to ASCII strings, which is all the
path producing it feeds in). -/
def queryEscape (s : String) : String :=
  String.mk (s.toList.map queryEscapeChar).flatten

/-- `main.go` `recvStageBpSocket`, one bundle: both on parse success and on
parse failure a `CrawlRequest` is pushed onto `urlChan` — a failure forwards
a synthetic `error://invalid-request/` URL (which the fetch stage answers
with a 400 response) rather than discarding the bundle; the loop then
continues with the next bundle. -/
def recvStageBpSocket (unmarshalled : Option bpsocket.DTNRequestFields) : CrawlRequest :=
  match bpsocket.ParseDTNRequest unmarshalled with
  | Except.error e =>
      { RequestID := "", URL := "error://invalid-request/" ++ queryEscape e, Depth := 0 }
  | Except.ok (url, reqID) =>
      { RequestID := reqID, URL := url, Depth := 0 }

/-- `main.go` `DTNJsonRequest` (the decode target on the earth side): same
JSON field tags as the backend encoder, plus a `Version` field that is absent
from the wire payload and therefore left at zero. -/
structure DTNJsonRequest where
  RequestID : String
  Method : String
  URL : String
  Headers : HeaderMap
  Body : String
  Version : Int
deriving Repr, DecidableEq

end earthMain

deriving instance DecidableEq for Except

/-! ## backend-server gateway (bp_gateway.go, channel-based revision):
correlation layer and dispatcher -/

namespace gateway

/-- `DTNJsonRequest` (bp_gateway.go): the request envelope sent as a bundle;
`Body` is a base64 string. -/
structure DTNJsonRequest where
  RequestID : String
  Method : String
  URL : String
  Headers : HeaderMap
  Body : String
deriving Repr, DecidableEq

/-- `DTNJsonResponse` (bp_gateway.go): the response envelope received as a
bundle. -/
structure DTNJsonResponse where
  RequestID : String
  StatusCode : Int
  Headers : HeaderMap
  Body : String
  ContentType : String
  ContentLength : Int
deriving Repr, DecidableEq

/-- One rendezvous slot: the buffer-1 channel a caller waits on.  `none` is
an empty channel, `some r` a channel already holding a response. -/
abbrev Slot := Option DTNJsonResponse

/-- `BpGateway.responseChs` (a `sync.Map` from requestID to channel), as an
association list with unique keys. -/
abbrev Registry := List (String × Slot)

/-- `sync.Map.Store`: insert or replace the entry for `k`. -/
def regStore (reg : Registry) (k : String) (v : Slot) : Registry :=
  (k, v) :: reg.filter (fun p => p.1 != k)

/-- `sync.Map.Delete`. -/
def regDelete (reg : Registry) (k : String) : Registry :=
  reg.filter (fun p => p.1 != k)

/-- `sync.Map.Load`: `none` when no slot is registered under `k`. -/
def regLoad (reg : Registry) (k : String) : Option Slot :=
  (reg.find? (fun p => p.1 == k)).map (fun p => p.2)

/-- `http.Header.Add`: append `v` to the value list of key `k`, creating the
key if absent.  (Go canonicalizes MIME header keys; the claims under proof do
not depend on canonicalization, so keys are kept verbatim.) -/
def headerAdd (h : HeaderMap) (k v : String) : HeaderMap :=
  if h.any (fun p => p.1 == k) then
    h.map (fun p => if p.1 == k then (p.1, p.2 ++ [v]) else p)
  else h ++ [(k, [v])]

/-- The header rebuild loop in `ProxyRequest`: `Add` every value of every key
of the envelope headers into a fresh `http.Header`. -/
def buildHttpHeader (hs : HeaderMap) : HeaderMap :=
  hs.foldl (fun acc kv => kv.2.foldl (fun a v => headerAdd a kv.1 v) acc) []

/-- `sendBundle` (bp_gateway.go): the `DTNJsonRequest` it marshals and
transmits — the request fields are copied verbatim and the body is
base64-encoded. -/
def sendBundleEnvelope (reqID : String) (breq : BpRequest) : DTNJsonRequest :=
  { RequestID := reqID
    Method := breq.Method
    URL := breq.URL
    Headers := breq.Headers
    Body := base64Encode breq.Body }

/-- What ends the `select` in `ProxyRequest`: either the dispatcher delivered
an envelope on the call's channel, or the context deadline/cancellation
fired first. -/
inductive WaitOutcome where
  | response (r : DTNJsonResponse)
  | ctxDone
deriving Repr, DecidableEq

/-- Observable outcome of one `BpGateway.ProxyRequest` call: the returned
value, the registry contents while the call was waiting, and the registry
contents after the deferred `Delete` ran. -/
structure ProxyCall where
  result : Except String BpResponse
  registryDuringWait : Registry
  registryAfter : Registry
deriving Repr, DecidableEq

/-- `BpGateway.ProxyRequest` (bp_gateway.go): store a fresh buffer-1 channel
under `reqID`, defer its deletion, send the bundle (failure returns an error),
then block until either the dispatcher delivers an envelope — whose base64
body is decoded, failure returning an error — or the context fires, returning
a timeout/cancellation error.  `sendResult` is the `sendBundle` outcome and
`wait` the select outcome. -/
def BpGateway.ProxyRequest (reg : Registry) (reqID : String)
    (sendResult : Except String Unit) (wait : WaitOutcome) : ProxyCall :=
  let reg1 := regStore reg reqID none
  match sendResult with
  | Except.error e =>
      { result := Except.error ("failed to send bundle: " ++ e)
        registryDuringWait := reg1
        registryAfter := regDelete reg1 reqID }
  | Except.ok () =>
      match wait with
      | WaitOutcome.ctxDone =>
          { result := Except.error "request timed out or cancelled"
            registryDuringWait := reg1
            registryAfter := regDelete reg1 reqID }
      | WaitOutcome.response dtnResp =>
          match base64Decode dtnResp.Body with
          | none =>
              { result := Except.error "error decoding base64 body"
                registryDuringWait := reg1
                registryAfter := regDelete reg1 reqID }
          | some bodyBytes =>
              { result := Except.ok
                  { StatusCode := dtnResp.StatusCode
                    Headers := buildHttpHeader dtnResp.Headers
                    Body := bodyBytes
                    ContentType := dtnResp.ContentType
                    ContentLength := dtnResp.ContentLength }
                registryDuringWait := reg1
                registryAfter := regDelete reg1 reqID }

/-- What the dispatcher did with one received payload. -/
inductive DispatchAction where
  | decodeFailed
  | delivered (id : String)
  | droppedFull (id : String)
  | orphanDropped (id : String)
deriving Repr, DecidableEq

/-- Result of one dispatcher iteration. -/
structure DispatchStep where
  registry : Registry
  action : DispatchAction
deriving Repr, DecidableEq

/-- One iteration of the dispatcher in `StartReceiver` (bp_gateway.go):
`decoded` is the `json.Unmarshal` outcome on the payload (`none` models a
payload that fails to decode, which is logged and discarded).  A decoded
envelope is delivered to the registered channel non-blocking — the
`select`/`default` drops it when the buffer already holds a response — and
an envelope with no registered channel is logged and dropped. -/
def dispatchResponse (reg : Registry) (decoded : Option DTNJsonResponse) : DispatchStep :=
  match decoded with
  | none => { registry := reg, action := DispatchAction.decodeFailed }
  | some resp =>
      match regLoad reg resp.RequestID with
      | some none =>
          { registry := regStore reg resp.RequestID (some resp)
            action := DispatchAction.delivered resp.RequestID }
      | some (some _) =>
          { registry := reg, action := DispatchAction.droppedFull resp.RequestID }
      | none =>
          { registry := reg, action := DispatchAction.orphanDropped resp.RequestID }

/-- The dispatcher loop over a finite trace of payload decode outcomes. -/
def dispatcherRun (reg : Registry) : List (Option DTNJsonResponse) → Registry × List DispatchAction
  | [] => (reg, [])
  | p :: rest =>
      let step := dispatchResponse reg p
      let tail := dispatcherRun step.registry rest
      (tail.1, step.action :: tail.2)

end gateway

namespace earthMain

/-- `json.Marshal` on the backend's `DTNJsonRequest` followed by
`json.Unmarshal` into the earth-side `DTNJsonRequest`: the five shared field
tags transfer verbatim and the extra `version` field, absent from the wire
payload, is left at its zero value. -/
def decodeEnvelope (e : gateway.DTNJsonRequest) : DTNJsonRequest :=
  { RequestID := e.RequestID
    Method := e.Method
    URL := e.URL
    Headers := e.Headers
    Body := e.Body
    Version := 0 }

/-- Recovering the body bytes from a received envelope
(`base64.StdEncoding.DecodeString` as used on the earth side). -/
def decodeBody (e : DTNJsonRequest) : Option (List Nat) :=
  base64Decode e.Body

end earthMain

/-! ## backend-server service and worker (bp_service.go, request_handler.go) -/

def startsWithList : List Char → List Char → Bool
  | _, [] => true
  | [], _ :: _ => false
  | a :: as, b :: bs => a == b && startsWithList as bs

/-- Go `strings.Contains` over explicit character lists. -/
def containsList (pat : List Char) : List Char → Bool
  | [] => pat.isEmpty
  | c :: rest => startsWithList (c :: rest) pat || containsList pat rest

/-- Go `strings.Contains(s, sub)`. -/
def strContains (s sub : String) : Bool :=
  containsList sub.toList s.toList

/-- Go `strings.HasPrefix(s, pre)`. -/
def strStartsWith (s pre : String) : Bool :=
  startsWithList s.toList pre.toList

/-- Go `map` lookup on a header multimap: `value, ok := m[k]`. -/
def headerLookup (hs : HeaderMap) (k : String) : Option (List String) :=
  (hs.find? (fun p => p.1 == k)).map (fun p => p.2)

/-- The session/auth/token cookie test of `BpRequest.IsCacheable`
(bprequest.go). -/
def isSessionCookie (cookie : String) : Bool :=
  strContains cookie.toLower "session" || strContains cookie.toLower "auth" ||
    strContains cookie.toLower "token"

/-- `BpRequest.IsCacheable` (bprequest.go): only GET requests without a
session/auth/token cookie are cacheable. -/
def BpRequest.IsCacheable (br : BpRequest) : Bool :=
  if br.Method != "GET" then false
  else
    match headerLookup br.Headers "Cookie" with
    | some cookies => !(cookies.any isSessionCookie)
    | none => true

namespace service

/-- Outcome of `bprepository.GetResponse` as `bp_service.go` reads it: an
error, a hit, or a miss (`found == false` without error). -/
inductive CacheLookup where
  | lookupErr (e : String)
  | hit (resp : BpResponse)
  | miss
deriving Repr, DecidableEq

/-- Observable outcome of one `BpService.ProxyRequest` call: the returned
value and which collaborators were invoked. -/
structure ServiceCall where
  result : Except String BpResponse
  gatewayCalled : Bool
  reserveCalled : Bool
deriving Repr, DecidableEq

/-- The fixed body of the 503 fallback response in `bp_service.go`. -/
def unavailableBody : List Nat :=
  strBytes "503 Service Unavailable: Failed to load default page and direct proxy is unavailable in DTN environment."

/-- `BpService.ProxyRequest` (bp_service.go): non-cacheable requests and
cache-lookup errors go straight to the gateway; a hit returns the cached
response; a miss reserves the request (unless the placeholder content type is
an image) and returns the placeholder with status 200, falling back to the
default page (status 200) and finally to a synthesized 503 response when the
default page cannot be loaded.  `gatewayResult` is what
`bpgateway.ProxyRequest` would return, `(phBody, phContentType, phErr)` the
`utils.GetPlaceholderContent` outcome, and `defaultPage` the
`utils.LoadDefaultPage` outcome; a `ReserveRequest` error is only logged, so
it does not appear as an input. -/
def BpService.ProxyRequest (breq : BpRequest) (gatewayResult : Except String BpResponse)
    (cache : CacheLookup) (phBody : Option (List Nat)) (phContentType : String)
    (phErr : Bool) (defaultPage : Except String (List Nat)) : ServiceCall :=
  if !breq.IsCacheable then
    { result := gatewayResult, gatewayCalled := true, reserveCalled := false }
  else
    match cache with
    | CacheLookup.lookupErr _ =>
        { result := gatewayResult, gatewayCalled := true, reserveCalled := false }
    | CacheLookup.hit resp =>
        { result := Except.ok resp, gatewayCalled := false, reserveCalled := false }
    | CacheLookup.miss =>
        let isImage := strStartsWith phContentType "image/"
        let reserveCalled := !isImage
        match phErr, phBody with
        | false, some body =>
            { result := Except.ok
                { StatusCode := 200, Headers := [], Body := body,
                  ContentType := phContentType, ContentLength := (body.length : Int) }
              gatewayCalled := false
              reserveCalled := reserveCalled }
        | _, _ =>
            match defaultPage with
            | Except.error _ =>
                { result := Except.ok
                    { StatusCode := 503, Headers := [], Body := unavailableBody,
                      ContentType := "text/plain; charset=utf-8",
                      ContentLength := (unavailableBody.length : Int) }
                  gatewayCalled := false
                  reserveCalled := reserveCalled }
            | Except.ok htmlBytes =>
                { result := Except.ok
                    { StatusCode := 200, Headers := breq.Headers, Body := htmlBytes,
                      ContentType := "text/html; charset=utf-8",
                      ContentLength := (htmlBytes.length : Int) }
                  gatewayCalled := false
                  reserveCalled := reserveCalled }

/-- Status code of a returned response, `none` for an error return. -/
def callStatus (r : Except String BpResponse) : Option Int :=
  match r with
  | Except.ok resp => some resp.StatusCode
  | Except.error _ => none

end service

namespace worker

/-- Outcome of the worker's cache re-check in `HandleRequest`
(request_handler.go): `GetResponse` errored (execution continues), found a
cached response, or found nothing. -/
inductive CacheCheck where
  | checkErr (e : String)
  | found (resp : BpResponse)
  | notFound
deriving Repr, DecidableEq

def CacheCheck.isFound : CacheCheck → Bool
  | CacheCheck.found _ => true
  | _ => false

/-- Observable outcome of one `RequestHandler.HandleRequest` call: the
returned error value and which collaborators were invoked. -/
structure HandleResult where
  ret : Except String Unit
  gatewayCalled : Bool
  persistCalled : Bool
  removeCalled : Bool
deriving Repr, DecidableEq

/-- `RequestHandler.HandleRequest` (request_handler.go): if the response is
already cached the reservation is removed and the handler returns nil; on a
gateway error the handler logs and returns nil with the removal call
commented out in the source, so the reservation stays; a non-200 status
removes the reservation without persisting; a 200 response is persisted (a
persist error is only logged) and the reservation is removed, propagating a
removal error.  `cache` is the re-check outcome, `gatewayResult` the
`bpgateway.ProxyRequest` outcome, `persistResult` the `SetResponseWithURL`
outcome and `removeResult` the `RemoveReservedRequest` outcome. -/
def RequestHandler.HandleRequest (cache : CacheCheck)
    (gatewayResult : Except String BpResponse)
    (_persistResult removeResult : Except String Unit) : HandleResult :=
  match cache with
  | CacheCheck.found _ =>
      { ret := Except.ok (), gatewayCalled := false, persistCalled := false,
        removeCalled := true }
  | _ =>
      match gatewayResult with
      | Except.error _ =>
          { ret := Except.ok (), gatewayCalled := true, persistCalled := false,
            removeCalled := false }
      | Except.ok resp =>
          if resp.StatusCode ≠ 200 then
            { ret := Except.ok (), gatewayCalled := true, persistCalled := false,
              removeCalled := true }
          else
            { ret := removeResult, gatewayCalled := true, persistCalled := true,
              removeCalled := true }

end worker

/-! ## Theorems -/

theorem charToSextet_sextetToChar : ∀ n, n < 64 → charToSextet (sextetToChar n) = some n := by
  decide

theorem sextetToChar_ne_pad : ∀ n, n < 64 → (sextetToChar n == '=') = false := by
  decide

theorem base64DecodeChars_encodeBytes :
    ∀ (bs : List Nat), (∀ b ∈ bs, b < 256) →
      base64DecodeChars (base64EncodeBytes bs) = some bs
  | [], _ => rfl
  | [a], h => by
    have ha : a < 256 := h a (by simp)
    have h0 := charToSextet_sextetToChar (a / 4) (by omega)
    have h1 := charToSextet_sextetToChar (a % 4 * 16) (by omega)
    simp only [base64EncodeBytes, base64DecodeChars, h0, h1]
    simp only [beq_self_eq_true, List.isEmpty_nil, Bool.and_self, if_true, Option.some.injEq,
      List.cons.injEq, and_true]
    omega
  | [a, b], h => by
    have ha : a < 256 := h a (by simp)
    have hb : b < 256 := h b (by simp)
    have h0 := charToSextet_sextetToChar (a / 4) (by omega)
    have h1 := charToSextet_sextetToChar (a % 4 * 16 + b / 16) (by omega)
    have h2 := charToSextet_sextetToChar (b % 16 * 4) (by omega)
    have n2 := sextetToChar_ne_pad (b % 16 * 4) (by omega)
    simp only [base64EncodeBytes, base64DecodeChars, h0, h1, h2, n2]
    simp [List.isEmpty_nil]
    omega
  | a :: b :: c :: rest, h => by
    have ha : a < 256 := h a (by simp)
    have hb : b < 256 := h b (by simp)
    have hc : c < 256 := h c (by simp)
    have ih := base64DecodeChars_encodeBytes rest (fun x hx => h x (by simp [hx]))
    have h0 := charToSextet_sextetToChar (a / 4) (by omega)
    have h1 := charToSextet_sextetToChar (a % 4 * 16 + b / 16) (by omega)
    have h2 := charToSextet_sextetToChar (b % 16 * 4 + c / 64) (by omega)
    have h3 := charToSextet_sextetToChar (c % 64) (by omega)
    have n2 := sextetToChar_ne_pad (b % 16 * 4 + c / 64) (by omega)
    have n3 := sextetToChar_ne_pad (c % 64) (by omega)
    simp only [base64EncodeBytes, base64DecodeChars, h0, h1, h2, h3, n2, n3, ih]
    simp
    omega

theorem base64Decode_encode (bs : List Nat) (h : ∀ b ∈ bs, b < 256) :
    base64Decode (base64Encode bs) = some bs := by
  simpa [base64Encode, base64Decode] using base64DecodeChars_encodeBytes bs h

/-! ### C10: bundle address truncation -/

/-- Claim C10: constructing a bundle address silently truncates 64-bit node
and service numbers to their low 32 bits (value mod two to the 32) before
storing them, so two node numbers that differ by a multiple of two to the 32
produce identical addresses. -/
theorem newSockaddrBP_truncates_to_32_bits (node svc : Nat)
    (hn : node < 2 ^ 64) (hs : svc < 2 ^ 64) :
    (bpsocket.NewSockaddrBP node svc).NodeNum = node % 2 ^ 32 ∧
    (bpsocket.NewSockaddrBP node svc).SvcNum = svc % 2 ^ 32 ∧
    (∀ node2, node2 < 2 ^ 64 → node2 % 2 ^ 32 = node % 2 ^ 32 →
      bpsocket.NewSockaddrBP node2 svc = bpsocket.NewSockaddrBP node svc) ∧
    (∀ svc2, svc2 < 2 ^ 64 → svc2 % 2 ^ 32 = svc % 2 ^ 32 →
      bpsocket.NewSockaddrBP node svc2 = bpsocket.NewSockaddrBP node svc) := by
  refine ⟨rfl, rfl, ?_, ?_⟩ <;> intro x hx heq <;>
    simp [bpsocket.NewSockaddrBP] <;> omega

/-- Witness for C10 at concrete inputs: node numbers 5 and 5 + 2^32 with
service number 7 yield the same address. -/
theorem newSockaddrBP_truncates_to_32_bits_witness :
    bpsocket.NewSockaddrBP (5 + 2 ^ 32) 7 = bpsocket.NewSockaddrBP 5 7 :=
  (newSockaddrBP_truncates_to_32_bits 5 7 (by norm_num) (by norm_num)).2.2.1
    (5 + 2 ^ 32) (by norm_num) (by decide)

/-! ### C9: Close is not idempotent -/

/-- Claim C9 (code bug): `BpSocket.Close` guards on `fd >= 0` but never
resets `fd` after a successful close, so a second `Close` re-invokes the OS
close on the already-closed descriptor and returns an EBADF error instead of
leaving the socket state unchanged without error. -/
theorem bpSocket_close_second_call_errors :
    (bpsocket.BpSocket.Close { fd := 3 } [3]).1 = Except.ok () ∧
    (bpsocket.BpSocket.Close { fd := 3 }
        (bpsocket.BpSocket.Close { fd := 3 } [3]).2).1
      = Except.error "close syscall error: EBADF" := by
  constructor <;> rfl

/-! ### C6: receive loop has no reconnection -/

/-- Claim C6 (code bug): in `receiveLoop` (earth/bpsocket/receiver.go) three
consecutive receive errors leave the loop state untouched — the socket is
never recreated and the loop neither backs off nor stops — contradicting the
documented count-3-errors / reconnect-up-to-3-times policy. -/
theorem receiveLoop_no_reconnect_after_three_errors :
    bpsocket.receiveLoopRun
        { socketRecreations := 0, queue := [], stopped := false }
        [bpsocket.RecvOutcome.err "recvfrom failed",
         bpsocket.RecvOutcome.err "recvfrom failed",
         bpsocket.RecvOutcome.err "recvfrom failed"]
      = { socketRecreations := 0, queue := [], stopped := false } := rfl

/-! ### C5: 4 MiB size boundary -/

/-- Claim C5: `BpSender.Send` accepts a serialized payload of exactly 4 MiB
and hands it to the socket, while a serialized payload of 4 MiB + 1 bytes or
more is rejected with a size-exceeded error and never reaches the socket. -/
theorem bpSender_send_size_boundary (d1 d2 : List Nat)
    (h1 : d1.length = bpsocket.maxBundleSize)
    (h2 : d2.length ≥ bpsocket.maxBundleSize + 1) :
    bpsocket.BpSender.Send d1 = bpsocket.SendResult.sentToSocket d1 ∧
    bpsocket.BpSender.Send d2
      = bpsocket.SendResult.sizeExceeded d2.length bpsocket.maxBundleSize ∧
    (∀ d, bpsocket.BpSender.Send d2 ≠ bpsocket.SendResult.sentToSocket d) := by
  have hgt : d2.length > bpsocket.maxBundleSize := by omega
  refine ⟨?_, ?_, ?_⟩
  · simp [bpsocket.BpSender.Send, h1]
  · simp [bpsocket.BpSender.Send, hgt]
  · intro d
    simp [bpsocket.BpSender.Send, hgt]

/-- Witness for C5 at concrete payloads of length 4 MiB and 4 MiB + 1. -/
theorem bpSender_send_size_boundary_witness :
    bpsocket.BpSender.Send (List.replicate bpsocket.maxBundleSize 0)
      = bpsocket.SendResult.sentToSocket (List.replicate bpsocket.maxBundleSize 0) ∧
    bpsocket.BpSender.Send (List.replicate (bpsocket.maxBundleSize + 1) 0)
      = bpsocket.SendResult.sizeExceeded (bpsocket.maxBundleSize + 1)
          bpsocket.maxBundleSize := by
  have h := bpSender_send_size_boundary (List.replicate bpsocket.maxBundleSize 0)
    (List.replicate (bpsocket.maxBundleSize + 1) 0) (by simp) (by simp)
  exact ⟨h.1, by simpa using h.2.1⟩

/-! ### C1: worker reservation removal -/

/-- Claim C1 (counterexample): with no cached response and a failing gateway
call, `HandleRequest` logs and returns without removing the reservation,
refuting removal after one attempt on every outcome. -/
theorem handleRequest_gateway_error_keeps_reservation :
    (worker.RequestHandler.HandleRequest worker.CacheCheck.notFound
        (Except.error "failed to send bundle") (Except.ok ()) (Except.ok ())).removeCalled
      = false := rfl

/-- Claim C1 (amended): `HandleRequest` makes exactly one processing attempt
per reservation: a cached response drops the reservation without calling the
gateway; a non-200 response drops it without persisting; a 200 response is
persisted and the reservation dropped; but on a gateway error the handler
logs and returns with the removal skipped, leaving the reservation in
place. -/
theorem handleRequest_reservation_lifecycle (cache : worker.CacheCheck)
    (gatewayResult : Except String BpResponse)
    (persistResult removeResult : Except String Unit) :
    (∀ resp, cache = worker.CacheCheck.found resp →
       (worker.RequestHandler.HandleRequest cache gatewayResult persistResult removeResult)
         = { ret := Except.ok (), gatewayCalled := false, persistCalled := false,
             removeCalled := true }) ∧
    (cache.isFound = false → ∀ e, gatewayResult = Except.error e →
       (worker.RequestHandler.HandleRequest cache gatewayResult persistResult removeResult)
         = { ret := Except.ok (), gatewayCalled := true, persistCalled := false,
             removeCalled := false }) ∧
    (cache.isFound = false → ∀ resp, gatewayResult = Except.ok resp → resp.StatusCode ≠ 200 →
       (worker.RequestHandler.HandleRequest cache gatewayResult persistResult removeResult)
         = { ret := Except.ok (), gatewayCalled := true, persistCalled := false,
             removeCalled := true }) ∧
    (cache.isFound = false → ∀ resp, gatewayResult = Except.ok resp → resp.StatusCode = 200 →
       (worker.RequestHandler.HandleRequest cache gatewayResult persistResult removeResult)
         = { ret := removeResult, gatewayCalled := true, persistCalled := true,
             removeCalled := true }) := by
  refine ⟨?_, ?_, ?_, ?_⟩
  · rintro resp rfl
    rfl
  · rintro hnf e rfl
    cases cache <;> simp_all [worker.RequestHandler.HandleRequest, worker.CacheCheck.isFound]
  · rintro hnf resp rfl hne
    cases cache <;>
      simp_all [worker.RequestHandler.HandleRequest, worker.CacheCheck.isFound]
  · rintro hnf resp rfl h200
    cases cache <;>
      simp_all [worker.RequestHandler.HandleRequest, worker.CacheCheck.isFound]

/-- Witness for C1 (amended) at concrete inputs: a 200 response is persisted
and the reservation removed; a 404 response drops the reservation without
persisting. -/
theorem handleRequest_reservation_lifecycle_witness :
    (worker.RequestHandler.HandleRequest worker.CacheCheck.notFound
        (Except.ok { StatusCode := 200, Headers := [], Body := [], ContentType := "", ContentLength := 0 })
        (Except.ok ()) (Except.ok ()))
      = { ret := Except.ok (), gatewayCalled := true, persistCalled := true,
          removeCalled := true } ∧
    (worker.RequestHandler.HandleRequest worker.CacheCheck.notFound
        (Except.ok { StatusCode := 404, Headers := [], Body := [], ContentType := "", ContentLength := 0 })
        (Except.ok ()) (Except.ok ()))
      = { ret := Except.ok (), gatewayCalled := true, persistCalled := false,
          removeCalled := true } := by
  constructor
  · exact (handleRequest_reservation_lifecycle worker.CacheCheck.notFound _
      (Except.ok ()) (Except.ok ())).2.2.2 rfl _ rfl rfl
  · exact (handleRequest_reservation_lifecycle worker.CacheCheck.notFound _
      (Except.ok ()) (Except.ok ())).2.2.1 rfl _ rfl (by decide)

/-! ### C2: cache-aside scheduler -/

/-- Claim C2: `BpService.ProxyRequest` behaves cache-aside: a non-cacheable
request goes straight to the gateway without touching the cache; a cache hit
is returned without calling the gateway; a cache miss reserves the request
unless the URL's inferred content type is an image and returns an immediate
response with status 200, returning status 503 exactly when neither the
placeholder nor the default page can be produced. -/
theorem bpService_proxyRequest_cache_aside (breq : BpRequest)
    (gatewayResult : Except String BpResponse) (cache : service.CacheLookup)
    (phBody : Option (List Nat)) (phContentType : String) (phErr : Bool)
    (defaultPage : Except String (List Nat)) :
    (breq.IsCacheable = false →
       service.BpService.ProxyRequest breq gatewayResult cache phBody phContentType phErr defaultPage
         = { result := gatewayResult, gatewayCalled := true, reserveCalled := false }) ∧
    (breq.IsCacheable = true → ∀ resp, cache = service.CacheLookup.hit resp →
       service.BpService.ProxyRequest breq gatewayResult cache phBody phContentType phErr defaultPage
         = { result := Except.ok resp, gatewayCalled := false, reserveCalled := false }) ∧
    (breq.IsCacheable = true → cache = service.CacheLookup.miss →
       (service.BpService.ProxyRequest breq gatewayResult cache phBody phContentType phErr
           defaultPage).reserveCalled = !strStartsWith phContentType "image/" ∧
       (service.BpService.ProxyRequest breq gatewayResult cache phBody phContentType phErr
           defaultPage).gatewayCalled = false ∧
       (service.callStatus (service.BpService.ProxyRequest breq gatewayResult cache phBody
           phContentType phErr defaultPage).result = some 200 ∨
        service.callStatus (service.BpService.ProxyRequest breq gatewayResult cache phBody
           phContentType phErr defaultPage).result = some 503) ∧
       (service.callStatus (service.BpService.ProxyRequest breq gatewayResult cache phBody
           phContentType phErr defaultPage).result = some 503 ↔
         (phErr = true ∨ phBody = none) ∧ ∃ e, defaultPage = Except.error e)) := by
  refine ⟨?_, ?_, ?_⟩
  · intro hnc
    simp [service.BpService.ProxyRequest, hnc]
  · rintro hc resp rfl
    simp [service.BpService.ProxyRequest, hc]
  · rintro hc rfl
    cases phErr <;> cases phBody <;> cases defaultPage <;>
      simp_all [service.BpService.ProxyRequest, service.callStatus]

/-- Witness for C2 at concrete inputs: a cacheable GET on a miss with a
producible HTML placeholder is reserved and answered with status 200; the
same miss with no placeholder and no default page is answered with 503; an
image miss is not reserved. -/
theorem bpService_proxyRequest_cache_aside_witness :
    (service.BpService.ProxyRequest { Method := "GET", URL := "http://example.org/a", Headers := [], Body := [] }
        (Except.error "gw unused") service.CacheLookup.miss (some [104, 105]) "text/html" false
        (Except.ok [60])).reserveCalled = true ∧
    service.callStatus (service.BpService.ProxyRequest { Method := "GET", URL := "http://example.org/a", Headers := [], Body := [] }
        (Except.error "gw unused") service.CacheLookup.miss (some [104, 105]) "text/html" false
        (Except.ok [60])).result = some 200 ∧
    service.callStatus (service.BpService.ProxyRequest { Method := "GET", URL := "http://example.org/a", Headers := [], Body := [] }
        (Except.error "gw unused") service.CacheLookup.miss none "text/html" true
        (Except.error "no default page")).result = some 503 ∧
    (service.BpService.ProxyRequest { Method := "GET", URL := "http://example.org/img.png", Headers := [], Body := [] }
        (Except.error "gw unused") service.CacheLookup.miss (some [1]) "image/png" false
        (Except.ok [60])).reserveCalled = false := by
  have hcache : BpRequest.IsCacheable { Method := "GET", URL := "http://example.org/a", Headers := [], Body := [] } = true := by
    decide
  have hcache2 : BpRequest.IsCacheable { Method := "GET", URL := "http://example.org/img.png", Headers := [], Body := [] } = true := by
    decide
  have h1 := (bpService_proxyRequest_cache_aside
    { Method := "GET", URL := "http://example.org/a", Headers := [], Body := [] }
    (Except.error "gw unused") service.CacheLookup.miss (some [104, 105]) "text/html" false
    (Except.ok [60])).2.2 hcache rfl
  have h2 := (bpService_proxyRequest_cache_aside
    { Method := "GET", URL := "http://example.org/a", Headers := [], Body := [] }
    (Except.error "gw unused") service.CacheLookup.miss none "text/html" true
    (Except.error "no default page")).2.2 hcache rfl
  have h3 := (bpService_proxyRequest_cache_aside
    { Method := "GET", URL := "http://example.org/img.png", Headers := [], Body := [] }
    (Except.error "gw unused") service.CacheLookup.miss (some [1]) "image/png" false
    (Except.ok [60])).2.2 hcache2 rfl
  refine ⟨h1.1.trans (by decide), ?_, ?_, h3.1.trans (by decide)⟩
  · rcases h1.2.2.1 with h | h
    · exact h
    · exact absurd (h1.2.2.2.mp h) (by simp)
  · exact h2.2.2.2.mpr ⟨Or.inl rfl, "no default page", rfl⟩

/-! ### C3: gateway correlation rendezvous -/

theorem regDelete_regStore (reg : gateway.Registry) (k : String) (v : gateway.Slot) :
    gateway.regDelete (gateway.regStore reg k v) k = reg.filter (fun p => p.1 != k) := by
  simp [gateway.regDelete, gateway.regStore, List.filter_filter]

theorem regFilter_of_load_none (reg : gateway.Registry) (k : String)
    (h : gateway.regLoad reg k = none) :
    reg.filter (fun p => p.1 != k) = reg := by
  have hf : reg.find? (fun p => p.1 == k) = none := by
    simpa [gateway.regLoad, Option.map_eq_none'] using h
  rw [List.filter_eq_self]
  intro p hp
  have := List.find?_eq_none.mp hf p hp
  simpa [bne] using this

theorem regLoad_regStore_self (reg : gateway.Registry) (k : String) (v : gateway.Slot) :
    gateway.regLoad (gateway.regStore reg k v) k = some v := by
  simp [gateway.regLoad, gateway.regStore]

/-- Claim C3: `BpGateway.ProxyRequest` registers a one-slot rendezvous under
the fresh requestID (the slot is present and empty while the call waits) and
either returns the decoded response the dispatcher delivered, or an error
when the deadline/cancellation fires first, or an error when the send fails;
on every exit path the slot is removed, restoring the registry. -/
theorem bpGateway_proxyRequest_rendezvous (reg : gateway.Registry) (reqID : String)
    (sendResult : Except String Unit) (wait : gateway.WaitOutcome)
    (hfresh : gateway.regLoad reg reqID = none) :
    gateway.regLoad
        (gateway.BpGateway.ProxyRequest reg reqID sendResult wait).registryDuringWait reqID
      = some none ∧
    (gateway.BpGateway.ProxyRequest reg reqID sendResult wait).registryAfter = reg ∧
    (∀ e, sendResult = Except.error e →
       (gateway.BpGateway.ProxyRequest reg reqID sendResult wait).result
         = Except.error ("failed to send bundle: " ++ e)) ∧
    (sendResult = Except.ok () → wait = gateway.WaitOutcome.ctxDone →
       (gateway.BpGateway.ProxyRequest reg reqID sendResult wait).result
         = Except.error "request timed out or cancelled") ∧
    (∀ r bodyBytes, sendResult = Except.ok () → wait = gateway.WaitOutcome.response r →
       base64Decode r.Body = some bodyBytes →
       (gateway.BpGateway.ProxyRequest reg reqID sendResult wait).result
         = Except.ok { StatusCode := r.StatusCode,
                       Headers := gateway.buildHttpHeader r.Headers,
                       Body := bodyBytes, ContentType := r.ContentType,
                       ContentLength := r.ContentLength }) := by
  have hduring :
      (gateway.BpGateway.ProxyRequest reg reqID sendResult wait).registryDuringWait
        = gateway.regStore reg reqID none := by
    rcases sendResult with e | u
    · rfl
    · cases u
      rcases wait with r | _
      · cases hb : base64Decode r.Body <;>
          simp [gateway.BpGateway.ProxyRequest, hb]
      · rfl
  have hafter :
      (gateway.BpGateway.ProxyRequest reg reqID sendResult wait).registryAfter
        = gateway.regDelete (gateway.regStore reg reqID none) reqID := by
    rcases sendResult with e | u
    · rfl
    · cases u
      rcases wait with r | _
      · cases hb : base64Decode r.Body <;>
          simp [gateway.BpGateway.ProxyRequest, hb]
      · rfl
  refine ⟨?_, ?_, ?_, ?_, ?_⟩
  · rw [hduring, regLoad_regStore_self]
  · rw [hafter, regDelete_regStore, regFilter_of_load_none reg reqID hfresh]
  · rintro e rfl
    rfl
  · rintro rfl rfl
    rfl
  · rintro r bodyBytes rfl rfl hb
    simp [gateway.BpGateway.ProxyRequest, hb]

/-- Witness for C3 at concrete inputs: with an empty registry, requestID
ab12, a successful send and a delivered envelope whose body decodes to the
bytes 1, 2, 3, the call returns the decoded response and the registry is
restored to empty. -/
theorem bpGateway_proxyRequest_rendezvous_witness :
    (gateway.BpGateway.ProxyRequest [] "ab12" (Except.ok ())
        (gateway.WaitOutcome.response { RequestID := "ab12", StatusCode := 200, Headers := [], Body := "AQID", ContentType := "text/plain", ContentLength := 3 })).registryAfter
      = [] ∧
    (gateway.BpGateway.ProxyRequest [] "ab12" (Except.ok ())
        (gateway.WaitOutcome.response { RequestID := "ab12", StatusCode := 200, Headers := [], Body := "AQID", ContentType := "text/plain", ContentLength := 3 })).result
      = Except.ok { StatusCode := 200, Headers := [], Body := [1, 2, 3], ContentType := "text/plain", ContentLength := 3 } := by
  have h := bpGateway_proxyRequest_rendezvous [] "ab12" (Except.ok ())
    (gateway.WaitOutcome.response { RequestID := "ab12", StatusCode := 200, Headers := [], Body := "AQID", ContentType := "text/plain", ContentLength := 3 })
    rfl
  refine ⟨h.2.1, ?_⟩
  have hr := h.2.2.2.2 _ [1, 2, 3] rfl rfl (by rfl)
  simpa [gateway.buildHttpHeader] using hr

/-! ### C4: dispatcher routing -/

/-- Claim C4: each payload the dispatcher processes is handled exactly once
and never stops the loop: a payload that fails to decode is discarded with
the registry unchanged; a decoded envelope with a registered empty slot is
delivered into that slot; one whose slot is already filled is dropped with
the registry unchanged; one with no registered slot is dropped exactly once
with the registry unchanged; and in every case the loop goes on to process
the rest of the trace. -/
theorem bpGateway_dispatcher_routing (reg : gateway.Registry)
    (decoded : Option gateway.DTNJsonResponse) :
    (decoded = none →
       (gateway.dispatchResponse reg decoded).registry = reg ∧
       (gateway.dispatchResponse reg decoded).action = gateway.DispatchAction.decodeFailed) ∧
    (∀ r, decoded = some r → gateway.regLoad reg r.RequestID = some none →
       (gateway.dispatchResponse reg decoded).action
         = gateway.DispatchAction.delivered r.RequestID ∧
       gateway.regLoad (gateway.dispatchResponse reg decoded).registry r.RequestID
         = some (some r)) ∧
    (∀ r prev, decoded = some r → gateway.regLoad reg r.RequestID = some (some prev) →
       (gateway.dispatchResponse reg decoded).action
         = gateway.DispatchAction.droppedFull r.RequestID ∧
       (gateway.dispatchResponse reg decoded).registry = reg) ∧
    (∀ r, decoded = some r → gateway.regLoad reg r.RequestID = none →
       (gateway.dispatchResponse reg decoded).action
         = gateway.DispatchAction.orphanDropped r.RequestID ∧
       (gateway.dispatchResponse reg decoded).registry = reg) ∧
    (∀ rest, gateway.dispatcherRun reg (decoded :: rest)
       = ((gateway.dispatcherRun (gateway.dispatchResponse reg decoded).registry rest).1,
          (gateway.dispatchResponse reg decoded).action ::
            (gateway.dispatcherRun (gateway.dispatchResponse reg decoded).registry rest).2)) := by
  refine ⟨?_, ?_, ?_, ?_, ?_⟩
  · rintro rfl
    exact ⟨rfl, rfl⟩
  · rintro r rfl hload
    constructor
    · simp [gateway.dispatchResponse, hload]
    · simp [gateway.dispatchResponse, hload, regLoad_regStore_self]
  · rintro r prev rfl hload
    constructor <;> simp [gateway.dispatchResponse, hload]
  · rintro r rfl hload
    constructor <;> simp [gateway.dispatchResponse, hload]
  · intro rest
    rfl

/-- Witness for C4 at concrete inputs: with one registered empty slot for
requestID ab, a matching envelope is delivered into it, while an orphan
envelope for requestID zz is dropped leaving the registry unchanged, and the
loop continues over the rest of the trace. -/
theorem bpGateway_dispatcher_routing_witness :
    (gateway.dispatchResponse [("ab", none)]
        (some { RequestID := "ab", StatusCode := 200, Headers := [], Body := "", ContentType := "", ContentLength := 0 })).action
      = gateway.DispatchAction.delivered "ab" ∧
    (gateway.dispatchResponse [("ab", none)]
        (some { RequestID := "zz", StatusCode := 200, Headers := [], Body := "", ContentType := "", ContentLength := 0 })).action
      = gateway.DispatchAction.orphanDropped "zz" ∧
    (gateway.dispatchResponse [("ab", none)]
        (some { RequestID := "zz", StatusCode := 200, Headers := [], Body := "", ContentType := "", ContentLength := 0 })).registry
      = [("ab", none)] := by
  have h1 := (bpGateway_dispatcher_routing [("ab", none)]
    (some { RequestID := "ab", StatusCode := 200, Headers := [], Body := "", ContentType := "", ContentLength := 0 })).2.1
    _ rfl (by rfl)
  have h2 := (bpGateway_dispatcher_routing [("ab", none)]
    (some { RequestID := "zz", StatusCode := 200, Headers := [], Body := "", ContentType := "", ContentLength := 0 })).2.2.2.1
    _ rfl (by rfl)
  exact ⟨h1.1, h2.1, h2.2⟩

/-! ### C7: inbound request decode validation -/

/-- Claim C7 (counterexample): a payload with a valid URL but no requestID
decodes successfully (the requestID passes through as the empty string), and
a malformed payload is not discarded by the receive stage — it is forwarded
into the pipeline as a synthetic `error://invalid-request/` crawl request. -/
theorem parseDTNRequest_missing_id_not_failure :
    bpsocket.ParseDTNRequest (some { RequestID := "", URL := "http://example.org/" })
      = Except.ok ("http://example.org/", "") ∧
    earthMain.recvStageBpSocket none
      = { RequestID := "", URL := "error://invalid-request/JSON+parse+error", Depth := 0 } := by
  constructor <;> rfl

/-- Claim C7 (amended): decoding treats a malformed JSON payload and an empty
URL as decode failures, but a missing requestID is not validated and decodes
to the empty string; a decode failure is not fatal to the receive loop, yet
instead of discarding the bundle the receive stage forwards a synthetic
error-marker request into the processing pipeline. -/
theorem parseDTNRequest_decode_behavior (fields : Option bpsocket.DTNRequestFields) :
    (fields = none → bpsocket.ParseDTNRequest fields = Except.error "JSON parse error") ∧
    (∀ f, fields = some f → f.URL = "" →
       bpsocket.ParseDTNRequest fields = Except.error "URL is empty") ∧
    (∀ f, fields = some f → f.URL ≠ "" →
       bpsocket.ParseDTNRequest fields = Except.ok (f.URL, f.RequestID)) ∧
    (∀ e, bpsocket.ParseDTNRequest fields = Except.error e →
       earthMain.recvStageBpSocket fields
         = { RequestID := "", URL := "error://invalid-request/" ++ earthMain.queryEscape e,
             Depth := 0 }) := by
  refine ⟨?_, ?_, ?_, ?_⟩
  · rintro rfl
    rfl
  · rintro f rfl hurl
    simp [bpsocket.ParseDTNRequest, hurl]
  · rintro f rfl hurl
    simp [bpsocket.ParseDTNRequest, hurl]
  · intro e he
    simp [earthMain.recvStageBpSocket, he]

/-- Witness for C7 (amended) at concrete inputs: an empty URL is rejected,
a payload carrying only a URL decodes with an empty requestID, and a
malformed payload is forwarded as an error-marker request. -/
theorem parseDTNRequest_decode_behavior_witness :
    bpsocket.ParseDTNRequest (some { RequestID := "id7", URL := "" })
      = Except.error "URL is empty" ∧
    bpsocket.ParseDTNRequest (some { RequestID := "", URL := "http://a.example/" })
      = Except.ok ("http://a.example/", "") ∧
    earthMain.recvStageBpSocket none
      = { RequestID := "", URL := "error://invalid-request/" ++ earthMain.queryEscape "JSON parse error",
          Depth := 0 } := by
  refine ⟨?_, ?_, ?_⟩
  · exact (parseDTNRequest_decode_behavior
      (some { RequestID := "id7", URL := "" })).2.1 _ rfl rfl
  · exact (parseDTNRequest_decode_behavior
      (some { RequestID := "", URL := "http://a.example/" })).2.2.1 _ rfl (by decide)
  · exact (parseDTNRequest_decode_behavior none).2.2.2 "JSON parse error" rfl

/-! ### C8: request envelope round-trip -/

/-- Claim C8: encoding a request model into a `DTNJsonRequest` envelope on
the backend and decoding that envelope on the earth side reproduces method,
URL, headers, and body bytes exactly. -/
theorem request_envelope_roundtrip (reqID : String) (breq : BpRequest)
    (hbytes : ∀ b ∈ breq.Body, b < 256) :
    (earthMain.decodeEnvelope (gateway.sendBundleEnvelope reqID breq)).Method = breq.Method ∧
    (earthMain.decodeEnvelope (gateway.sendBundleEnvelope reqID breq)).URL = breq.URL ∧
    (earthMain.decodeEnvelope (gateway.sendBundleEnvelope reqID breq)).Headers = breq.Headers ∧
    earthMain.decodeBody (earthMain.decodeEnvelope (gateway.sendBundleEnvelope reqID breq))
      = some breq.Body := by
  refine ⟨rfl, rfl, rfl, ?_⟩
  simpa [earthMain.decodeBody, earthMain.decodeEnvelope, gateway.sendBundleEnvelope]
    using base64Decode_encode breq.Body hbytes

/-- Witness for C8 at a concrete request: a POST with one header and body
bytes 72, 105 round-trips exactly. -/
theorem request_envelope_roundtrip_witness :
    (earthMain.decodeEnvelope (gateway.sendBundleEnvelope "req1"
        { Method := "POST", URL := "http://example.org/api", Headers := [("Accept", ["text/html"])], Body := [72, 105] })).Method
      = "POST" ∧
    earthMain.decodeBody (earthMain.decodeEnvelope (gateway.sendBundleEnvelope "req1"
        { Method := "POST", URL := "http://example.org/api", Headers := [("Accept", ["text/html"])], Body := [72, 105] }))
      = some [72, 105] := by
  have h := request_envelope_roundtrip "req1"
    { Method := "POST", URL := "http://example.org/api", Headers := [("Accept", ["text/html"])], Body := [72, 105] }
    (by decide)
  exact ⟨h.1, h.2.2.2⟩
